import Mathlib

/-!
Verification of the interview-session client of the ai-voice-interviewer
frontend.  The definitions below are shallow embeddings of the TypeScript
source: the connection/reconnection logic and the facade operations of
`src/hooks/useInterviewSocket.tsx`, the message handler, speech-synthesis
discipline and answer timer of the `InterviewSection` component, and the
response-sending paths of `src/hooks/useSimpleInterview.tsx`.  Asynchronous
browser callbacks (`onclose`, `onmessage`, utterance `onend`, interval
ticks) are modelled as explicit step functions on a state record; observable
side effects (sends over the socket, speech playback, recognition control)
are returned as explicit effect lists.
-/

namespace InterviewFE

/-- The `InterviewState` union type of `useInterviewSocket.tsx`. -/
inductive InterviewState where
  | connecting
  | ready
  | aiSpeaking
  | listening
  | sending
  | waitingBackend
  | completed
  | error
deriving DecidableEq, Repr

/-- Browser WebSocket `readyState` values. -/
inductive ReadyState where
  | connectingRS
  | openRS
  | closingRS
  | closedRS
deriving DecidableEq, Repr

/--
The module-level globals of `useInterviewSocket.tsx` (`globalWs`,
`globalConnectionState`, `globalIsConnected`, `globalSessionId`,
`globalReconnectAttempts`, `globalIsConnecting`) together with the pending
reconnect timeout held in `reconnectTimeoutRef`.  The socket object is
abstracted to its `readyState`.
-/
structure ConnGlobals where
  ws : Option ReadyState
  connectionState : InterviewState
  isConnected : Bool
  sessionId : String
  reconnectAttempts : Nat
  isConnecting : Bool
  reconnectTimeout : Option Nat
deriving DecidableEq, Repr

/-- What a call to `connect()` did. -/
inductive ConnectOutcome where
  | reuseExisting
  | skipInProgress
  | openNew
deriving DecidableEq, Repr

/--
`connect()` of `useInterviewSocket.tsx` (lines 133-239).  If the global
socket is OPEN the existing connection is reused (only the local React
mirrors are synced).  If a connection attempt is already in flight the call
returns without acting.  Otherwise the pending reconnect timeout is cleared,
a stale socket is closed and dropped, and a new `WebSocket` is constructed,
whose `readyState` starts at CONNECTING.
-/
def connect (g : ConnGlobals) : ConnGlobals × ConnectOutcome :=
  if g.ws = some ReadyState.openRS then
    (g, ConnectOutcome.reuseExisting)
  else if g.isConnecting then
    (g, ConnectOutcome.skipInProgress)
  else
    ({ g with isConnecting := true
              reconnectTimeout := none
              ws := some ReadyState.connectingRS
              connectionState := InterviewState.connecting },
     ConnectOutcome.openNew)

/-- The `ws.onopen` handler (lines 174-185): flags are reset, the retry
counter is zeroed, and after a short settle delay the state becomes
`ready`. -/
def onopen (g : ConnGlobals) : ConnGlobals :=
  { g with isConnecting := false
           reconnectAttempts := 0
           ws := some ReadyState.openRS
           isConnected := true
           connectionState := InterviewState.ready }

/--
The `ws.onclose` handler (lines 196-224).  Returns the new globals and the
delay, in milliseconds, of a scheduled reconnection attempt (`none` when no
attempt is scheduled).  Unless the interview is `completed`, a retry is
scheduled with delay `min (1000 * 2 ^ attempts) 10000` while fewer than 5
attempts have been made; otherwise the state becomes `error`.
-/
def onclose (g : ConnGlobals) : ConnGlobals × Option Nat :=
  let g1 : ConnGlobals :=
    { g with isConnecting := false
             isConnected := false
             ws := some ReadyState.closedRS }
  if g1.connectionState = InterviewState.completed then
    (g1, none)
  else if g1.reconnectAttempts < 5 then
    ({ g1 with connectionState := InterviewState.connecting
               reconnectAttempts := g1.reconnectAttempts + 1
               reconnectTimeout := some (min (1000 * 2 ^ g1.reconnectAttempts) 10000) },
     some (min (1000 * 2 ^ g1.reconnectAttempts) 10000))
  else
    ({ g1 with connectionState := InterviewState.error }, none)

/-- `retryConnection()` (lines 398-405): zero the retry counter, clear the
in-flight flag, and call `connect()` immediately. -/
def retryConnection (g : ConnGlobals) : ConnGlobals × ConnectOutcome :=
  connect { g with reconnectAttempts := 0, isConnecting := false }

/-- Outbound wire messages produced by the hooks. -/
inductive OutMessage where
  | endInterviewMsg (sessionId : String)
  | userResponse (response : String) (questionNumber : Int)
  | startInterviewMsg
deriving DecidableEq, Repr

/--
`endInterview()` of `useInterviewSocket.tsx` (lines 376-386).  Guard: if
there is no socket, or the sessionId is empty, or the socket is not OPEN,
the call returns without acting.  Otherwise it sends `end_interview` and
sets the state to `completed`.  It touches no timer and no speech engine.
-/
def endInterview (g : ConnGlobals) : ConnGlobals × List OutMessage :=
  if g.ws = some ReadyState.openRS ∧ g.sessionId ≠ "" then
    ({ g with connectionState := InterviewState.completed },
     [OutMessage.endInterviewMsg g.sessionId])
  else
    (g, [])

/-!
Model of the `InterviewSection` component (the second state-machine
implementation in the repository): inbound payload coercion, the
`response_analyzed` / `next_question` / `interview_started` handlers, the
answer timer, and speech synthesis.
-/

/-- Shape of the `question` / `nextQuestion` fields on the wire: the
component accepts a plain string or an object carrying a string `question`
field, and ignores every other shape. -/
inductive QuestionPayload where
  | absent
  | strVal (s : String)
  | objQuestion (s : String)
  | objOther
deriving DecidableEq, Repr

/-- The string/object coercion applied to `question` / `nextQuestion`
(`typeof x` checks at the head of each handler case). -/
def coerceQuestion : QuestionPayload → Option String
  | QuestionPayload.strVal s => some s
  | QuestionPayload.objQuestion s => some s
  | _ => none

/-- Shape of the `questionNumber` / `totalQuestions` fields: a number or a
string that is run through `parseInt`. -/
inductive NumPayload where
  | absent
  | numVal (n : Int)
  | strVal (s : String)
deriving DecidableEq, Repr

/-- A JavaScript numeric value as the handlers observe it: `undefined`,
`NaN`, or an integer. -/
inductive JsNum where
  | undef
  | nan
  | intVal (n : Int)
deriving DecidableEq, Repr

/-- JavaScript `parseInt`: skip leading whitespace, read an optional sign
and a maximal run of decimal digits; `NaN` (here `none`) when no digit is
found. -/
def parseIntJS (s : String) : Option Int :=
  let cs := s.toList.dropWhile fun c => c == ' ' || c == '\t' || c == '\n' || c == '\r'
  let signed : Int × List Char :=
    match cs with
    | '-' :: rest => (-1, rest)
    | '+' :: rest => (1, rest)
    | _ => (1, cs)
  let ds := signed.2.takeWhile Char.isDigit
  if ds.isEmpty then none
  else some (signed.1 * (ds.foldl (fun acc c => acc * 10 + (c.toNat - 48)) 0 : Nat))

/-- The `typeof x === 'string' ? parseInt(x) : x` coercion applied to
`questionNumber` and `totalQuestions`. -/
def coerceNum : NumPayload → JsNum
  | NumPayload.absent => JsNum.undef
  | NumPayload.numVal n => JsNum.intVal n
  | NumPayload.strVal s =>
    match parseIntJS s with
    | some n => JsNum.intVal n
    | none => JsNum.nan

/-- JavaScript truthiness of a number combined with the explicit
`!Number.isNaN` test: `undefined`, `NaN` and `0` are all rejected. -/
def truthyNum : JsNum → Bool
  | JsNum.intVal n => n != 0
  | _ => false

/-- Transcript entry speaker. -/
inductive Speaker where
  | ai
  | user
deriving DecidableEq, Repr

/-- A transcript `Message` of the component, reduced to the fields the
claims are about. -/
structure ChatMessage where
  speaker : Speaker
  content : String
deriving DecidableEq, Repr

/-- The React state of `InterviewSection` relevant to the claims, plus the
`answerTimerRef` interval handle. -/
structure SectionState where
  currentQuestion : Int
  messages : List ChatMessage
  totalQuestions : Int
  sessionId : Option String
  isAISpeaking : Bool
  isListening : Bool
  isMuted : Bool
  hasSynth : Bool
  answerTimer : Option Nat
  answerTimeLeft : Option Nat
deriving DecidableEq, Repr

/-- Observable side effects of the component handlers. -/
inductive Effect where
  | speak (content : String)
  | cancelSpeech
  | stopRecognition
  | startRecognition
  | sendMessage (mtype : String) (response : String) (questionNumber : Int)
  | complete
deriving DecidableEq, Repr

/-- Shapes accepted by `normalizeText`: a string, `null`/`undefined`, an
object with a string `text` field, an object with a string `question`
field, or anything else via `String(value)`. -/
inductive TextPayload where
  | strVal (s : String)
  | nullVal
  | objText (s : String)
  | objQuestion (s : String)
  | otherVal (printed : String)
deriving DecidableEq, Repr

/-- `normalizeText` (lines 937-950): defensively coerce an inbound payload
to a plain string. -/
def normalizeText : TextPayload → String
  | TextPayload.strVal s => s
  | TextPayload.nullVal => ""
  | TextPayload.objText s => s
  | TextPayload.objQuestion s => s
  | TextPayload.otherVal p => p

/-- `addAIMessage` (lines 952-972): normalize, drop empty content, append
an `ai` transcript entry (after a cosmetic delay, collapsed here) and speak
it via `speakMessage`, which is a no-op without a synthesis engine or while
muted and otherwise cancels any ongoing speech before speaking. -/
def addAIMessage (st : SectionState) (raw : TextPayload) : SectionState × List Effect :=
  let content := normalizeText raw
  if content.isEmpty then (st, [])
  else
    let st1 := { st with messages := st.messages ++ [{ speaker := Speaker.ai, content := content }] }
    if !st1.hasSynth || st1.isMuted then (st1, [])
    else ({ st1 with isAISpeaking := true }, [Effect.cancelSpeech, Effect.speak content])

/-- `stopListening` (lines 1026-1036): stop recognition, leave `listening`,
clear the answer interval and the countdown display. -/
def stopListening (st : SectionState) : SectionState × List Effect :=
  ({ st with isListening := false, answerTimer := none, answerTimeLeft := none },
   [Effect.stopRecognition])

/-- `handleInterviewComplete` (lines 1051-1058): stop listening, cancel
speech synthesis, and emit the completion callback. -/
def handleInterviewComplete (st : SectionState) : SectionState × List Effect :=
  let r := stopListening st
  (r.1, r.2 ++ [Effect.cancelSpeech, Effect.complete])

/-- The `if (qTotal && !Number.isNaN(qTotal)) setTotalQuestions(qTotal)`
step shared by the question handlers. -/
def applyTotal (st : SectionState) (qTotal : JsNum) : SectionState :=
  match qTotal with
  | JsNum.intVal t => if t != 0 then { st with totalQuestions := t } else st
  | _ => st

/-- The body of the `response_analyzed` / `next_question` cases before the
completion check (lines 811-829, 835-851): when the coerced question text
is truthy and the coerced number is truthy and not `NaN`, append the
question to the transcript, speak it, adopt the carried question number,
and adopt a valid total. -/
def respAnalyzedStep (st : SectionState) (rawNext : QuestionPayload)
    (rawNum rawTot : NumPayload) : SectionState × List Effect :=
  match coerceQuestion rawNext, coerceNum rawNum with
  | some q, JsNum.intVal n =>
    if !q.isEmpty && n != 0 then
      let r := addAIMessage st (TextPayload.strVal q)
      (applyTotal { r.1 with currentQuestion := n } (coerceNum rawTot), r.2)
    else (st, [])
  | _, _ => (st, [])

/-- The trailing `if (qNum && qTotal && qNum >= qTotal)` completion check of
those cases (lines 830-832, 852-854). -/
def completionCheck (rawNum rawTot : NumPayload) : Bool :=
  match coerceNum rawNum, coerceNum rawTot with
  | JsNum.intVal n, JsNum.intVal t => n != 0 && t != 0 && decide (t ≤ n)
  | _, _ => false

/-- The full `response_analyzed` / `next_question` case of
`handleWebSocketMessage` in `InterviewSection` (lines 811-856). -/
def respAnalyzed (st : SectionState) (rawNext : QuestionPayload)
    (rawNum rawTot : NumPayload) : SectionState × List Effect :=
  let r := respAnalyzedStep st rawNext rawNum rawTot
  if completionCheck rawNum rawTot then
    let c := handleInterviewComplete r.1
    (c.1, r.2 ++ c.2)
  else r

/-- The `interview_started` case (lines 794-809): if a question string can
be coerced, record it, set the current question number to 1, and adopt a
valid total. -/
def interviewStarted (st : SectionState) (rawQ : QuestionPayload)
    (rawTot : NumPayload) : SectionState × List Effect :=
  match coerceQuestion rawQ with
  | some q =>
    if q.isEmpty then (st, [])
    else
      let r := addAIMessage st (TextPayload.strVal q)
      (applyTotal { r.1 with currentQuestion := 1 } (coerceNum rawTot), r.2)
  | none => (st, [])

/-- The `interview_completed` case (lines 858-877): stop the speaking and
listening flags and emit the completion callback (persistence collapsed
into the effect). -/
def interviewCompleted (st : SectionState) : SectionState × List Effect :=
  ({ st with isAISpeaking := false, isListening := false }, [Effect.complete])

/-- An inbound envelope as decoded from JSON for the `InterviewSection`
component. -/
structure SectionMessage where
  mtype : String
  sessionId : Option String
  question : QuestionPayload
  nextQuestion : QuestionPayload
  questionNumber : NumPayload
  totalQuestions : NumPayload
deriving DecidableEq, Repr

/-- `handleWebSocketMessage` of `InterviewSection` (lines 787-888): the
full dispatch.  Unknown types hit the `default` arm, which logs and leaves
the state untouched. -/
def handleSectionMessage (st : SectionState) (m : SectionMessage) :
    SectionState × List Effect :=
  if m.mtype = "connection" then
    ({ st with sessionId :=
        match m.sessionId with
        | some s => if s.isEmpty then none else some s
        | none => none }, [])
  else if m.mtype = "interview_started" then
    interviewStarted st m.question m.totalQuestions
  else if m.mtype = "response_analyzed" then
    respAnalyzed st m.nextQuestion m.questionNumber m.totalQuestions
  else if m.mtype = "next_question" then
    respAnalyzed st m.question m.questionNumber m.totalQuestions
  else if m.mtype = "interview_completed" then
    interviewCompleted st
  else if m.mtype = "error" then
    addAIMessage st (TextPayload.strVal "Sorry, there was an error. Please try again.")
  else
    (st, [])

/--
The `ws.onmessage` handler installed by `connectWebSocket` in
`InterviewSection` (lines 760-763).  There is no try/catch around
`JSON.parse`: the argument `parsed` is the outcome of `JSON.parse` on the
raw payload (`Except.error e` models the `SyntaxError` thrown on a
non-JSON payload), and a parse failure propagates out of the handler
unchanged.
-/
def sectionOnmessage (st : SectionState) (parsed : Except String SectionMessage) :
    Except String (SectionState × List Effect) :=
  match parsed with
  | Except.ok m => Except.ok (handleSectionMessage st m)
  | Except.error e => Except.error e

/-- The React state of the `useInterviewSocket` hook touched by its message
handler. -/
structure HookState where
  state : InterviewState
  sessionId : String
  currentQuestion : String
  questionNumber : Int
  totalQuestions : Int
deriving DecidableEq, Repr

/-- Effects of the hook message handler. -/
inductive HookEffect where
  | playAI (text : String)
  | toastError (msg : String)
deriving DecidableEq, Repr

/-- An inbound envelope as decoded from JSON for `useInterviewSocket.tsx`
(its `WebSocketMessage` interface, fields the handler reads). -/
structure WireMessage where
  mtype : String
  sessionId : Option String
  question : Option String
  questionNumber : Option Int
  totalQuestions : Option Int
  nextQuestion : Option String
  finalFeedback : Option String
  errorMessage : Option String
deriving DecidableEq, Repr

/--
`handleWebSocketMessage` of `useInterviewSocket.tsx` (lines 241-276).
`response_analyzed` adopts the carried question number unconditionally
(`message.questionNumber || 0`); `playAIResponse` immediately sets the
state to `aiSpeaking`.  A message whose `type` matches no case falls out of
the switch with no state change.
-/
def handleWebSocketMessage (st : HookState) (m : WireMessage) :
    HookState × List HookEffect :=
  if m.mtype = "connection" then
    ({ st with sessionId := m.sessionId.getD "" }, [])
  else if m.mtype = "interview_started" then
    ({ st with state := InterviewState.aiSpeaking
               currentQuestion := m.question.getD ""
               questionNumber := m.questionNumber.getD 0
               totalQuestions := m.totalQuestions.getD 0 },
     [HookEffect.playAI (m.question.getD "")])
  else if m.mtype = "response_analyzed" then
    ({ st with state := InterviewState.aiSpeaking
               currentQuestion := m.nextQuestion.getD ""
               questionNumber := m.questionNumber.getD 0 },
     [HookEffect.playAI (m.nextQuestion.getD "")])
  else if m.mtype = "interview_completed" then
    match m.finalFeedback with
    | some f => ({ st with state := InterviewState.aiSpeaking }, [HookEffect.playAI f])
    | none => ({ st with state := InterviewState.completed }, [])
  else if m.mtype = "error" then
    ({ st with state := InterviewState.error },
     [HookEffect.toastError (m.errorMessage.getD "An error occurred during the interview.")])
  else
    (st, [])

/--
The `ws.onmessage` handler of `useInterviewSocket.tsx` (lines 187-194):
`JSON.parse` runs inside a try/catch, so a parse failure is logged and
swallowed, leaving the state untouched; the handler itself never lets an
exception escape.
-/
def hookOnmessage (st : HookState) (parsed : Except String WireMessage) :
    Except String (HookState × List HookEffect) :=
  match parsed with
  | Except.ok m => Except.ok (handleWebSocketMessage st m)
  | Except.error _ => Except.ok (st, [])

/--
One tick of the answer-countdown interval installed by `startListening` in
`InterviewSection` (lines 1007-1018), at the instant when `remaining`
milliseconds are left.  At expiry (`remaining = 0`) the callback stops
recognition, clears its own interval and leaves `listening`; it sends
nothing over the socket.
-/
def answerTimerTick (st : SectionState) (remaining : Nat) :
    SectionState × List Effect :=
  let st1 := { st with answerTimeLeft := some ((remaining + 999) / 1000) }
  if remaining = 0 then
    ({ st1 with answerTimer := none, isListening := false },
     [Effect.stopRecognition])
  else
    (st1, [])

/-- True of the effects the wire ever sees as a `user_response`. -/
def isSendEffect : Effect → Bool
  | Effect.sendMessage _ _ _ => true
  | _ => false

/-!
Allocation-level model of the answer timer (claim about orphaned
intervals).  `live` is the set of interval ids currently scheduled in the
browser (`window.setInterval` handles not yet passed to
`window.clearInterval`); `answerTimerRef` mirrors the component ref.
-/

/-- Interval-allocation state for the answer timer. -/
structure TimerWorld where
  nextId : Nat
  live : List Nat
  answerTimerRef : Option Nat
  isListening : Bool
deriving DecidableEq, Repr

/-- The timer part of `startListening` (lines 1001-1018): clear a
pre-existing interval through the ref, then install a fresh interval and
store its handle in the ref. -/
def startListeningTimers (w : TimerWorld) : TimerWorld :=
  let live1 :=
    match w.answerTimerRef with
    | some i => w.live.filter fun j => j != i
    | none => w.live
  { nextId := w.nextId + 1
    live := live1 ++ [w.nextId]
    answerTimerRef := some w.nextId
    isListening := true }

/-- The timer part of `stopListening` (lines 1026-1036): clear the interval
held in the ref, if any, and drop the ref. -/
def stopListeningTimers (w : TimerWorld) : TimerWorld :=
  let live1 :=
    match w.answerTimerRef with
    | some i => w.live.filter fun j => j != i
    | none => w.live
  { w with live := live1, answerTimerRef := none, isListening := false }

/-- The expiry branch of the interval callback (lines 1011-1017): the
callback clears its own interval through the ref and drops the ref. -/
def timerExpireTimers (w : TimerWorld) : TimerWorld :=
  let live1 :=
    match w.answerTimerRef with
    | some i => w.live.filter fun j => j != i
    | none => w.live
  { w with live := live1, answerTimerRef := none, isListening := false }

/-- Events that enter or leave `listening`. -/
inductive TimerEvent where
  | enterListening
  | exitListening
  | expire
deriving DecidableEq, Repr

/-- One event step on the timer world. -/
def timerStep (w : TimerWorld) : TimerEvent → TimerWorld
  | TimerEvent.enterListening => startListeningTimers w
  | TimerEvent.exitListening => stopListeningTimers w
  | TimerEvent.expire => timerExpireTimers w

/-- Initial timer world: no interval scheduled. -/
def timerInit : TimerWorld :=
  { nextId := 0, live := [], answerTimerRef := none, isListening := false }

/-- Run a sequence of listening entries/exits from the initial world. -/
def runTimers (evs : List TimerEvent) : TimerWorld :=
  evs.foldl timerStep timerInit

/-!
Model of the speech-synthesis queue discipline of `InterviewSection`.  The
browser `speechSynthesis.speak` appends to a queue whose head is the
playing utterance; `speechSynthesis.cancel` drops the whole queue.
-/

/-- Synthesis world: the platform utterance queue plus the component
flags. -/
structure SynthWorld where
  queue : List String
  isAISpeaking : Bool
  isMuted : Bool
  hasSynth : Bool
deriving DecidableEq, Repr

/-- Platform `speechSynthesis.cancel()`. -/
def synthCancel (w : SynthWorld) : SynthWorld :=
  { w with queue := [] }

/-- Platform `speechSynthesis.speak(utterance)`. -/
def synthSpeak (w : SynthWorld) (u : String) : SynthWorld :=
  { w with queue := w.queue ++ [u] }

/-- `speakMessage` (lines 890-935): return early without a synthesis engine
or while muted; otherwise cancel any ongoing speech, then speak the new
utterance, whose `onstart` raises the speaking flag. -/
def speakMessage (w : SynthWorld) (content : String) : SynthWorld :=
  if !w.hasSynth || w.isMuted then w
  else { synthSpeak (synthCancel w) content with isAISpeaking := true }

/-- The barge-in prelude of `startListening` (lines 995-999): if the AI is
speaking, cancel the in-progress speech first. -/
def startListeningSpeech (w : SynthWorld) : SynthWorld :=
  if w.isAISpeaking && w.hasSynth then
    { synthCancel w with isAISpeaking := false }
  else w

/-- `utterance.onend` (lines 919-927): the playing utterance leaves the
queue and the speaking flag drops. -/
def utteranceEnd (w : SynthWorld) : SynthWorld :=
  { w with queue := w.queue.drop 1, isAISpeaking := false }

/-- `toggleMute` (lines 1060-1066): flip the flag; when muting with a
synthesis engine present, cancel ongoing speech. -/
def toggleMute (w : SynthWorld) : SynthWorld :=
  if !w.isMuted && w.hasSynth then
    { synthCancel w with isAISpeaking := false, isMuted := true }
  else { w with isMuted := !w.isMuted }

/-- Speech-related events. -/
inductive SynthEvent where
  | speakEv (content : String)
  | listenEv
  | endEv
  | muteEv
deriving DecidableEq, Repr

/-- One event step on the synthesis world. -/
def synthStep (w : SynthWorld) : SynthEvent → SynthWorld
  | SynthEvent.speakEv c => speakMessage w c
  | SynthEvent.listenEv => startListeningSpeech w
  | SynthEvent.endEv => utteranceEnd w
  | SynthEvent.muteEv => toggleMute w

/-- Initial synthesis world: idle engine present. -/
def synthInit : SynthWorld :=
  { queue := [], isAISpeaking := false, isMuted := false, hasSynth := true }

/-- Run a sequence of speech events from the initial world. -/
def runSynth (evs : List SynthEvent) : SynthWorld :=
  evs.foldl synthStep synthInit

/-!
The response-sending operations of the two hooks.
-/

/-- ASCII whitespace, the alphabet of the trimming the claims exercise. -/
def isWsChar (c : Char) : Bool :=
  c == ' ' || c == '\t' || c == '\n' || c == '\r'

/-- The platform `String.prototype.trim()` (an executable model over the
character list: drop whitespace from both ends). -/
def jsTrim (s : String) : String :=
  String.mk (((s.toList.dropWhile isWsChar).reverse.dropWhile isWsChar).reverse)

/-- State read by `sendUserResponse` of `useInterviewSocket.tsx`. -/
structure ResponderState where
  ws : Option ReadyState
  state : InterviewState
  questionNumber : Int
deriving DecidableEq, Repr

/-- Observable steps of `sendUserResponse`, in order. -/
inductive ResponderEffect where
  | setState (s : InterviewState)
  | send (m : OutMessage)
deriving DecidableEq, Repr

/-- `sendUserResponse` (lines 341-356): with no socket, a blank trimmed
response, or a socket that is not OPEN, return without acting; otherwise
enter `sending`, transmit the trimmed text with the current question
number, and enter `waitingBackend`. -/
def sendUserResponse (st : ResponderState) (response : String) :
    ResponderState × List ResponderEffect :=
  if st.ws = some ReadyState.openRS ∧ jsTrim response ≠ "" then
    ({ st with state := InterviewState.waitingBackend },
     [ResponderEffect.setState InterviewState.sending,
      ResponderEffect.send (OutMessage.userResponse (jsTrim response) st.questionNumber),
      ResponderEffect.setState InterviewState.waitingBackend])
  else
    (st, [])

/-- `sendResponse` of `useSimpleInterview.tsx` (lines 157-169): with no
socket or a blank trimmed response, send nothing; otherwise transmit the
trimmed text with the current question number.  It changes no state. -/
def sendResponse (hasWs : Bool) (questionNumber : Int) (response : String) :
    List OutMessage :=
  if hasWs ∧ jsTrim response ≠ "" then
    [OutMessage.userResponse (jsTrim response) questionNumber]
  else []

/-!
Theorems.
-/

/-- Claim C2: on an unexpected close in any state other than `completed`,
the transport retries with exponential backoff delays starting at 1s and
doubling, capped at 10s (1s, 2s, 4s, 8s, 10s), for at most 5 attempts;
once the attempts are exhausted the state becomes the terminal `error`;
and `retryConnection()` resets the attempt counter to 0 and immediately
attempts a new connection. -/
theorem c2_reconnect_policy (g : ConnGlobals)
    (h : g.connectionState ≠ InterviewState.completed) :
    ((List.range 5).map (fun n => min (1000 * 2 ^ n) 10000)
       = [1000, 2000, 4000, 8000, 10000]) ∧
    (g.reconnectAttempts < 5 →
       (onclose g).2 = some (min (1000 * 2 ^ g.reconnectAttempts) 10000) ∧
       (onclose g).1.connectionState = InterviewState.connecting ∧
       (onclose g).1.reconnectAttempts = g.reconnectAttempts + 1) ∧
    (5 ≤ g.reconnectAttempts →
       (onclose g).1.connectionState = InterviewState.error ∧
       (onclose g).2 = none) ∧
    (retryConnection g).1.reconnectAttempts = 0 ∧
    (g.ws ≠ some ReadyState.openRS →
       (retryConnection g).2 = ConnectOutcome.openNew) := by
  refine ⟨by decide, ?_, ?_, ?_, ?_⟩
  · intro hlt
    simp only [onclose]
    rw [if_neg h, if_pos hlt]
    exact ⟨rfl, rfl, rfl⟩
  · intro hge
    simp only [onclose]
    rw [if_neg h, if_neg (by omega)]
    exact ⟨rfl, rfl⟩
  · simp only [retryConnection, connect]
    split
    · rfl
    · split
      · rfl
      · rfl
  · intro hws
    simp only [retryConnection, connect]
    rw [if_neg hws, if_neg (by simp)]

/-- Concrete run of claim C2 at a listening state with zero prior
attempts. -/
def gW2 : ConnGlobals :=
  { ws := some ReadyState.closedRS, connectionState := InterviewState.listening,
    isConnected := false, sessionId := "abc123", reconnectAttempts := 0,
    isConnecting := false, reconnectTimeout := none }

/-- Witness for claim C2. -/
theorem c2_reconnect_policy_witness :
    (onclose gW2).2 = some (min (1000 * 2 ^ (0 : Nat)) 10000) ∧
    (retryConnection gW2).2 = ConnectOutcome.openNew := by
  have h := c2_reconnect_policy gW2 (by decide)
  exact ⟨(h.2.1 (by decide)).1, h.2.2.2.2 (by decide)⟩

/-- Claim C3: `connect()` never produces two simultaneously open
connections: with an OPEN socket it reuses the existing connection
untouched, and a second call issued while the attempt opened by a first
call is still in flight returns without acting. -/
theorem c3_connect_single (g : ConnGlobals) :
    (g.ws = some ReadyState.openRS →
       connect g = (g, ConnectOutcome.reuseExisting)) ∧
    ((connect g).2 = ConnectOutcome.openNew →
       connect (connect g).1 = ((connect g).1, ConnectOutcome.skipInProgress)) := by
  constructor
  · intro hws
    simp only [connect]
    rw [if_pos hws]
  · intro hnew
    by_cases hws : g.ws = some ReadyState.openRS
    · exfalso
      simp only [connect] at hnew
      rw [if_pos hws] at hnew
      exact ConnectOutcome.noConfusion hnew
    · by_cases hic : g.isConnecting = true
      · exfalso
        simp only [connect] at hnew
        rw [if_neg hws, if_pos hic] at hnew
        exact ConnectOutcome.noConfusion hnew
      · have hg1 : (connect g).1 =
            { g with isConnecting := true
                     reconnectTimeout := none
                     ws := some ReadyState.connectingRS
                     connectionState := InterviewState.connecting } := by
          simp only [connect]
          rw [if_neg hws, if_neg hic]
        rw [hg1]
        simp [connect]

/-- Concrete run of claim C3: a fresh connect followed by a second call. -/
def gW3 : ConnGlobals :=
  { ws := none, connectionState := InterviewState.connecting,
    isConnected := false, sessionId := "", reconnectAttempts := 0,
    isConnecting := false, reconnectTimeout := none }

/-- Witness for claim C3. -/
theorem c3_connect_single_witness :
    connect (connect gW3).1 = ((connect gW3).1, ConnectOutcome.skipInProgress) :=
  (c3_connect_single gW3).2 (by decide)

/--
State observed by the `ws.onclose` handler of the hook variant in
`part_006`.  That hook keeps `state` in React `useState` and
`reconnectAttempts` / `isConnecting` in refs.  The handler installed on a
socket tests `state !== "completed"` against the value the `connect`
closure captured when it created that socket: handlers on an existing
socket are never re-installed when `state` later changes, so the guard
reads `capturedState`, frozen at socket-creation time, while `setState`
writes the live `liveState` the UI observes.  Refs are read live.
-/
structure HookVariantState where
  liveState : InterviewState
  capturedState : InterviewState
  isConnected : Bool
  reconnectAttempts : Nat
  isConnecting : Bool
deriving DecidableEq, Repr

/--
The `ws.onclose` handler of the `part_006` hook variant (lines 151-177):
clear the in-flight flag and connected flag; then, unless the *captured*
state is `completed`, schedule a retry with delay
`min (1000 * 2 ^ attempts) 10000` while fewer than 5 attempts have been
made — setting the live state to `connecting` — and otherwise set the live
state to `error`.  Returns the scheduled delay, `none` when nothing is
scheduled.
-/
def oncloseVariant (h : HookVariantState) : HookVariantState × Option Nat :=
  let h1 : HookVariantState := { h with isConnecting := false, isConnected := false }
  if h1.capturedState = InterviewState.completed then
    (h1, none)
  else if h1.reconnectAttempts < 5 then
    ({ h1 with liveState := InterviewState.connecting
               reconnectAttempts := h1.reconnectAttempts + 1 },
     some (min (1000 * 2 ^ h1.reconnectAttempts) 10000))
  else
    ({ h1 with liveState := InterviewState.error }, none)

/-- The `part_006` hook after the interview completed: the live state is
`completed`, but the close handler installed by the `connect` call that
opened the socket captured the `connecting` value `state` had back then. -/
def hC10 : HookVariantState :=
  { liveState := InterviewState.completed,
    capturedState := InterviewState.connecting,
    isConnected := true, reconnectAttempts := 0, isConnecting := false }

/-- Counterexample to claim C10: in the `part_006` variant a socket close
arriving while the live state is `completed` still schedules a 1s
reconnection attempt and moves the live state to `connecting`, because the
close handler tests the stale state value captured by the `connect`
closure, not the live one. -/
theorem c10_stale_close_retries_cex :
    hC10.liveState = InterviewState.completed ∧
    (oncloseVariant hC10).2 = some 1000 ∧
    (oncloseVariant hC10).1.liveState = InterviewState.connecting := by decide

/-- Claim C10 as amended: in the `useInterviewSocket.tsx` variant, whose
close handler reads the live module-level `globalConnectionState`, a close
in `completed` schedules no reconnection and leaves the state `completed`;
but in the `part_006` variant the close handler tests the state value its
`connect` closure captured at socket-creation time, so while that captured
value is not `completed` a close arriving after completion still schedules
a reconnection (with the usual backoff delay) and moves the live state to
`connecting`. -/
theorem c10_amended_completed_close (g : ConnGlobals)
    (hg : g.connectionState = InterviewState.completed)
    (h : HookVariantState)
    (hcap : h.capturedState ≠ InterviewState.completed)
    (hlt : h.reconnectAttempts < 5) :
    (onclose g).2 = none ∧
    (onclose g).1.connectionState = InterviewState.completed ∧
    (onclose g).1.reconnectAttempts = g.reconnectAttempts ∧
    (onclose g).1.reconnectTimeout = g.reconnectTimeout ∧
    (oncloseVariant h).2 = some (min (1000 * 2 ^ h.reconnectAttempts) 10000) ∧
    (oncloseVariant h).1.liveState = InterviewState.connecting := by
  refine ⟨?_, ?_, ?_, ?_, ?_, ?_⟩
  · simp only [onclose]
    rw [if_pos hg]
  · simp only [onclose]
    rw [if_pos hg]
    exact hg
  · simp only [onclose]
    rw [if_pos hg]
  · simp only [onclose]
    rw [if_pos hg]
  · simp only [oncloseVariant]
    rw [if_neg hcap, if_pos hlt]
  · simp only [oncloseVariant]
    rw [if_neg hcap, if_pos hlt]

/-- A close event in the completed state of the global-variable variant. -/
def gW10 : ConnGlobals :=
  { ws := some ReadyState.openRS, connectionState := InterviewState.completed,
    isConnected := true, sessionId := "abc123", reconnectAttempts := 2,
    isConnecting := false, reconnectTimeout := none }

/-- Witness for claim C10 as amended. -/
theorem c10_amended_completed_close_witness :
    (onclose gW10).2 = none ∧
    (onclose gW10).1.connectionState = InterviewState.completed ∧
    (oncloseVariant hC10).2 = some (min (1000 * 2 ^ (0 : Nat)) 10000) := by
  have h := c10_amended_completed_close gW10 (by decide) hC10 (by decide) (by decide)
  exact ⟨h.1, h.2.1, h.2.2.2.2.1⟩

/-- A live, non-terminal session whose socket has silently closed. -/
def gC6 : ConnGlobals :=
  { ws := some ReadyState.closedRS, connectionState := InterviewState.listening,
    isConnected := false, sessionId := "abc123", reconnectAttempts := 0,
    isConnecting := false, reconnectTimeout := none }

/-- Counterexample to claim C6: with the socket closed, `endInterview()`
called from the non-terminal `listening` state sends nothing and leaves the
state at `listening` — it does not transition to `completed`
unconditionally. -/
theorem c6_end_interview_guard_cex :
    (endInterview gC6).1.connectionState = InterviewState.listening ∧
    (endInterview gC6).2 = [] := by decide

/-- Claim C6 as amended: `endInterview()` sends `end_interview` and moves
the state to `completed` exactly when the socket is OPEN and a sessionId is
present; in every other situation it returns without acting.  Its effect
list is exactly the one send: it cancels no timer and no speech itself. -/
theorem c6_amended_end_interview (g : ConnGlobals)
    (hopen : g.ws = some ReadyState.openRS) (hsid : g.sessionId ≠ "")
    (g2 : ConnGlobals)
    (hfail : ¬(g2.ws = some ReadyState.openRS ∧ g2.sessionId ≠ "")) :
    endInterview g = ({ g with connectionState := InterviewState.completed },
                      [OutMessage.endInterviewMsg g.sessionId]) ∧
    endInterview g2 = (g2, []) := by
  constructor
  · simp only [endInterview]
    rw [if_pos ⟨hopen, hsid⟩]
  · simp only [endInterview]
    rw [if_neg hfail]

/-- A connected session in the ready state. -/
def gW6 : ConnGlobals :=
  { ws := some ReadyState.openRS, connectionState := InterviewState.ready,
    isConnected := true, sessionId := "abc123", reconnectAttempts := 0,
    isConnecting := false, reconnectTimeout := none }

/-- Witness for claim C6 as amended. -/
theorem c6_amended_end_interview_witness :
    endInterview gW6 = ({ gW6 with connectionState := InterviewState.completed },
                        [OutMessage.endInterviewMsg gW6.sessionId]) ∧
    endInterview gC6 = (gC6, []) :=
  c6_amended_end_interview gW6 (by decide) (by decide) gC6 (by decide)

/-- Claim C9: a recognition result whose text is empty or whitespace-only
is never transmitted and causes no state transition (in particular neither
`sending` nor `waitingBackend` is entered), in both hooks; a response with
non-whitespace content is transmitted trimmed. -/
theorem c9_whitespace_filtered (st : ResponderState) (hasWs : Bool) (qn : Int)
    (r s : String) (hr : jsTrim r = "") (hs : jsTrim s ≠ "")
    (hw : st.ws = some ReadyState.openRS) :
    sendUserResponse st r = (st, []) ∧
    sendResponse hasWs qn r = [] ∧
    (sendUserResponse st s).2 =
      [ResponderEffect.setState InterviewState.sending,
       ResponderEffect.send (OutMessage.userResponse (jsTrim s) st.questionNumber),
       ResponderEffect.setState InterviewState.waitingBackend] ∧
    (sendUserResponse st s).1.state = InterviewState.waitingBackend ∧
    sendResponse true qn s = [OutMessage.userResponse (jsTrim s) qn] := by
  refine ⟨?_, ?_, ?_, ?_, ?_⟩
  · simp only [sendUserResponse]
    rw [if_neg (by simp [hr])]
  · simp only [sendResponse]
    rw [if_neg (by simp [hr])]
  · simp only [sendUserResponse]
    rw [if_pos ⟨hw, hs⟩]
  · simp only [sendUserResponse]
    rw [if_pos ⟨hw, hs⟩]
  · simp only [sendResponse]
    rw [if_pos ⟨trivial, hs⟩]

/-- A listening session on question 1 with an open socket. -/
def stW9 : ResponderState :=
  { ws := some ReadyState.openRS, state := InterviewState.listening,
    questionNumber := 1 }

/-- Witness for claim C9. -/
theorem c9_whitespace_filtered_witness :
    sendUserResponse stW9 "   " = (stW9, []) ∧
    sendResponse true 1 " I have five years of experience " =
      [OutMessage.userResponse (jsTrim " I have five years of experience ") 1] := by
  have h := c9_whitespace_filtered stW9 true 1 "   "
    " I have five years of experience " (by decide) (by decide) (by decide)
  exact ⟨h.1, h.2.2.2.2⟩

/-- A listening state with the 60-second answer interval installed and no
final recognition result captured. -/
def stC4 : SectionState :=
  { currentQuestion := 1, messages := [], totalQuestions := 5,
    sessionId := some "abc123", isAISpeaking := false, isListening := true,
    isMuted := false, hasSynth := true, answerTimer := some 7,
    answerTimeLeft := some 1 }

/-- Counterexample to claim C4: when the answer timer expires with no
speech captured, the interval callback emits exactly one effect — stopping
recognition — and no `user_response` send of any kind; the claimed
empty/placeholder submission never happens. -/
theorem c4_timeout_no_send_cex :
    ((answerTimerTick stC4 0).2.all fun e => !isSendEffect e) = true ∧
    (answerTimerTick stC4 0).2 = [Effect.stopRecognition] ∧
    (answerTimerTick stC4 0).1.answerTimer = none := by decide

/-- Claim C4 as amended: at expiry the interval callback stops recognition,
clears its own interval (no dangling timer remains) and leaves `listening`,
but it sends no empty or placeholder `user_response` — silence after the
timeout is a soft stop, not a submission. -/
theorem c4_amended_timeout_noop (st : SectionState) :
    (answerTimerTick st 0).1.answerTimer = none ∧
    (answerTimerTick st 0).1.isListening = false ∧
    (answerTimerTick st 0).2 = [Effect.stopRecognition] := by
  simp only [answerTimerTick]
  exact ⟨rfl, rfl, rfl⟩

/-- The inductive invariant of the timer world: the scheduled intervals are
exactly the one the component ref holds, and every live id was allocated
earlier than the allocation counter. -/
def timerInv (w : TimerWorld) : Prop :=
  match w.answerTimerRef with
  | some i => w.live = [i] ∧ i < w.nextId
  | none => w.live = []

/-- Every listening entry/exit/expiry preserves the timer invariant. -/
theorem timerInv_step (w : TimerWorld) (e : TimerEvent) (h : timerInv w) :
    timerInv (timerStep w e) := by
  cases e with
  | enterListening =>
    cases hw : w.answerTimerRef with
    | none =>
      simp only [timerInv, hw] at h
      simp [timerStep, startListeningTimers, timerInv, hw, h]
    | some i =>
      rw [timerInv, hw] at h
      simp [timerStep, startListeningTimers, timerInv, hw, h.1]
  | exitListening =>
    cases hw : w.answerTimerRef with
    | none =>
      simp only [timerInv, hw] at h
      simp [timerStep, stopListeningTimers, timerInv, hw, h]
    | some i =>
      rw [timerInv, hw] at h
      simp [timerStep, stopListeningTimers, timerInv, hw, h.1]
  | expire =>
    cases hw : w.answerTimerRef with
    | none =>
      simp only [timerInv, hw] at h
      simp [timerStep, timerExpireTimers, timerInv, hw, h]
    | some i =>
      rw [timerInv, hw] at h
      simp [timerStep, timerExpireTimers, timerInv, hw, h.1]

/-- The timer invariant holds along any event fold. -/
theorem timerInv_foldl (evs : List TimerEvent) (w : TimerWorld)
    (h : timerInv w) : timerInv (evs.foldl timerStep w) := by
  induction evs generalizing w with
  | nil => exact h
  | cons e evs ih => exact ih _ (timerInv_step w e h)

/-- Claim C5: after any sequence of listening entries and exits, at most
one answer interval is scheduled at any instant, and entering `listening`
always clears the pre-existing interval before installing a new one — the
old interval is never left live. -/
theorem c5_at_most_one_timer (evs : List TimerEvent) :
    (runTimers evs).live.length ≤ 1 ∧
    (∀ i, (runTimers evs).answerTimerRef = some i →
      i ∉ (startListeningTimers (runTimers evs)).live) := by
  have h : timerInv (runTimers evs) := by
    rw [runTimers]
    exact timerInv_foldl evs timerInit (by simp [timerInv, timerInit])
  constructor
  · cases hw : (runTimers evs).answerTimerRef with
    | none =>
      rw [timerInv, hw] at h
      simp [h]
    | some i =>
      rw [timerInv, hw] at h
      simp [h.1]
  · intro i hi
    rw [timerInv, hi] at h
    have hlt : i < (runTimers evs).nextId := h.2
    simp [startListeningTimers, hi, h.1]
    omega

/-- Witness for claim C5: one listening entry, then the next entry drops
the interval the first one installed. -/
theorem c5_at_most_one_timer_witness :
    (runTimers [TimerEvent.enterListening]).live.length ≤ 1 ∧
    0 ∉ (startListeningTimers (runTimers [TimerEvent.enterListening])).live := by
  have h := c5_at_most_one_timer [TimerEvent.enterListening]
  exact ⟨h.1, h.2 0 (by decide)⟩

/-- Each speech event keeps the utterance queue at length at most one. -/
theorem synthQueue_step (w : SynthWorld) (e : SynthEvent)
    (h : w.queue.length ≤ 1) : (synthStep w e).queue.length ≤ 1 := by
  cases e with
  | speakEv c =>
    simp only [synthStep, speakMessage]
    split
    · exact h
    · simp [synthSpeak, synthCancel]
  | listenEv =>
    simp only [synthStep, startListeningSpeech]
    split
    · simp [synthCancel]
    · exact h
  | endEv =>
    simp only [synthStep, utteranceEnd]
    simp only [List.length_drop]
    omega
  | muteEv =>
    simp only [synthStep, toggleMute]
    split
    · simp [synthCancel]
    · exact h

/-- The queue bound holds along any event fold. -/
theorem synthQueue_foldl (evs : List SynthEvent) (w : SynthWorld)
    (h : w.queue.length ≤ 1) : (evs.foldl synthStep w).queue.length ≤ 1 := by
  induction evs generalizing w with
  | nil => exact h
  | cons e evs ih => exact ih _ (synthQueue_step w e h)

/-- Claim C7: at most one utterance is ever queued or playing;
`speakMessage` cancels the current utterance before speaking, so afterward
the queue holds exactly the new text; and starting capture while the AI is
speaking first cancels the in-progress speech (barge-in), emptying the
queue. -/
theorem c7_single_utterance (evs : List SynthEvent) (w : SynthWorld)
    (c : String) (hm : w.isMuted = false) (hs : w.hasSynth = true) :
    (runSynth evs).queue.length ≤ 1 ∧
    (speakMessage w c).queue = [c] ∧
    (w.isAISpeaking = true → (startListeningSpeech w).queue = []) := by
  refine ⟨?_, ?_, ?_⟩
  · rw [runSynth]
    exact synthQueue_foldl evs synthInit (by simp [synthInit])
  · simp [speakMessage, hm, hs, synthSpeak, synthCancel]
  · intro hsp
    simp [startListeningSpeech, hsp, hs, synthCancel]

/-- A world in which the AI is mid-utterance. -/
def wW7 : SynthWorld :=
  { queue := ["Tell me about yourself"], isAISpeaking := true,
    isMuted := false, hasSynth := true }

/-- Witness for claim C7. -/
theorem c7_single_utterance_witness :
    (runSynth [SynthEvent.speakEv "First question",
               SynthEvent.speakEv "Second question"]).queue.length ≤ 1 ∧
    (speakMessage wW7 "Next question").queue = ["Next question"] ∧
    (startListeningSpeech wW7).queue = [] := by
  have h := c7_single_utterance
    [SynthEvent.speakEv "First question", SynthEvent.speakEv "Second question"]
    wW7 "Next question" (by decide) (by decide)
  exact ⟨h.1, h.2.1, h.2.2 (by decide)⟩

/-- `addAIMessage` never touches the question counters. -/
theorem addAIMessage_fields (st : SectionState) (raw : TextPayload) :
    (addAIMessage st raw).1.currentQuestion = st.currentQuestion ∧
    (addAIMessage st raw).1.totalQuestions = st.totalQuestions := by
  simp only [addAIMessage]
  split
  · exact ⟨rfl, rfl⟩
  · split
    · exact ⟨rfl, rfl⟩
    · exact ⟨rfl, rfl⟩

/-- `addAIMessage` on a non-empty string appends exactly one `ai` entry. -/
theorem addAIMessage_messages (st : SectionState) (q : String)
    (hq : q.isEmpty = false) :
    (addAIMessage st (TextPayload.strVal q)).1.messages
      = st.messages ++ [{ speaker := Speaker.ai, content := q }] := by
  simp only [addAIMessage, normalizeText]
  rw [if_neg (by simp [hq])]
  split
  · rfl
  · rfl

/-- `applyTotal` only touches `totalQuestions`. -/
theorem applyTotal_fields (st : SectionState) (t : JsNum) :
    (applyTotal st t).currentQuestion = st.currentQuestion ∧
    (applyTotal st t).messages = st.messages := by
  cases t with
  | undef => exact ⟨rfl, rfl⟩
  | nan => exact ⟨rfl, rfl⟩
  | intVal n =>
    simp only [applyTotal]
    split
    · exact ⟨rfl, rfl⟩
    · exact ⟨rfl, rfl⟩

/-- `handleInterviewComplete` preserves the question counter and the
transcript. -/
theorem handleInterviewComplete_fields (st : SectionState) :
    (handleInterviewComplete st).1.currentQuestion = st.currentQuestion ∧
    (handleInterviewComplete st).1.messages = st.messages :=
  ⟨rfl, rfl⟩

/-- An interview session sitting at question 1. -/
def stC1 : SectionState :=
  { currentQuestion := 1, messages := [], totalQuestions := 5,
    sessionId := some "abc123", isAISpeaking := false, isListening := false,
    isMuted := false, hasSynth := true, answerTimer := none,
    answerTimeLeft := none }

/-- Counterexample to claim C1: a `response_analyzed` message carrying
question number 3 while the current number is 1 is applied, not discarded —
the current question number jumps to 3 and the transcript grows. -/
theorem c1_out_of_order_applied_cex :
    (respAnalyzed stC1 (QuestionPayload.strVal "Why do you want this role")
        (NumPayload.numVal 3) (NumPayload.numVal 5)).1.currentQuestion = 3 ∧
    stC1.currentQuestion = 1 ∧
    (respAnalyzed stC1 (QuestionPayload.strVal "Why do you want this role")
        (NumPayload.numVal 3) (NumPayload.numVal 5)).1.messages
      ≠ stC1.messages := by decide

/-- Claim C1 as amended: the handler applies any message carrying a
coercible non-empty question text and a truthy, non-`NaN` question number,
adopting that number regardless of its relation to the current one (there
is no `current + 1` check); only a message whose question number fails the
truthiness test is guaranteed to leave the state and transcript
unchanged. -/
theorem c1_amended_no_ordering_check (st : SectionState) (q : String)
    (n : Int) (rawNext : QuestionPayload) (rawNum rawTot : NumPayload)
    (hq : q.isEmpty = false) (hn : n ≠ 0) :
    (respAnalyzed st (QuestionPayload.strVal q) (NumPayload.numVal n)
        rawTot).1.currentQuestion = n ∧
    (respAnalyzed st (QuestionPayload.strVal q) (NumPayload.numVal n)
        rawTot).1.messages
      = st.messages ++ [{ speaker := Speaker.ai, content := q }] ∧
    (truthyNum (coerceNum rawNum) = false →
       respAnalyzed st rawNext rawNum rawTot = (st, [])) := by
  have hstep : respAnalyzedStep st (QuestionPayload.strVal q)
      (NumPayload.numVal n) rawTot
      = (applyTotal
           { (addAIMessage st (TextPayload.strVal q)).1 with currentQuestion := n }
           (coerceNum rawTot),
         (addAIMessage st (TextPayload.strVal q)).2) := by
    simp only [respAnalyzedStep, coerceQuestion, coerceNum]
    rw [if_pos (by simp [hq, bne_iff_ne, hn])]
  refine ⟨?_, ?_, ?_⟩
  · simp only [respAnalyzed, hstep]
    split
    · rw [(handleInterviewComplete_fields _).1, (applyTotal_fields _ _).1]
    · rw [(applyTotal_fields _ _).1]
  · simp only [respAnalyzed, hstep]
    have hmsg :
        (applyTotal
          { (addAIMessage st (TextPayload.strVal q)).1 with currentQuestion := n }
          (coerceNum rawTot)).messages
        = st.messages ++ [{ speaker := Speaker.ai, content := q }] := by
      rw [(applyTotal_fields _ _).2]
      exact addAIMessage_messages st q hq
    split
    · rw [(handleInterviewComplete_fields _).2, hmsg]
    · exact hmsg
  · intro hfalse
    have hstep0 : respAnalyzedStep st rawNext rawNum rawTot = (st, []) := by
      simp only [respAnalyzedStep]
      cases hc : coerceQuestion rawNext with
      | none => cases coerceNum rawNum <;> rfl
      | some q2 =>
        cases hcn : coerceNum rawNum with
        | undef => rfl
        | nan => rfl
        | intVal m =>
          rw [hcn] at hfalse
          simp only [truthyNum] at hfalse
          simp [hfalse]
    have hcc : completionCheck rawNum rawTot = false := by
      simp only [completionCheck]
      cases hcn : coerceNum rawNum with
      | undef => rfl
      | nan => rfl
      | intVal m =>
        rw [hcn] at hfalse
        simp only [truthyNum] at hfalse
        cases coerceNum rawTot <;> simp [hfalse]
    simp only [respAnalyzed, hstep0, hcc]
    rfl

/-- Witness for claim C1 as amended. -/
theorem c1_amended_no_ordering_check_witness :
    (respAnalyzed stC1 (QuestionPayload.strVal "Next question")
        (NumPayload.numVal 3) (NumPayload.numVal 5)).1.currentQuestion = 3 ∧
    respAnalyzed stC1 QuestionPayload.absent NumPayload.absent
        (NumPayload.numVal 5) = (stC1, []) := by
  have h := c1_amended_no_ordering_check stC1 "Next question" 3
    QuestionPayload.absent NumPayload.absent (NumPayload.numVal 5)
    (by decide) (by decide)
  exact ⟨h.1, h.2.2 (by decide)⟩

/-- A session state for the message-handler safety runs. -/
def stC8 : SectionState :=
  { currentQuestion := 2, messages := [], totalQuestions := 5,
    sessionId := some "abc123", isAISpeaking := false, isListening := true,
    isMuted := false, hasSynth := true, answerTimer := some 3,
    answerTimeLeft := some 30 }

/-- Counterexample to claim C8: in the `InterviewSection` variant the
`onmessage` handler runs `JSON.parse` with no surrounding try/catch, so on
a non-JSON payload the thrown `SyntaxError` (modelled as the `Except.error`
outcome of the parse) escapes the handler instead of being logged and
discarded. -/
theorem c8_unparseable_escapes_cex :
    sectionOnmessage stC8 (Except.error "SyntaxError: Unexpected token") =
      Except.error "SyntaxError: Unexpected token" := rfl

/-- Claim C8 as amended: in the `useInterviewSocket` hook the handler is
total — every parse outcome yields a result, a parse failure is swallowed
with the state untouched — and in both handlers a message with an unknown
`type` is discarded without any state change; but the `InterviewSection`
handler itself lets the parse exception escape (see the counterexample). -/
theorem c8_amended_handler_totality (st : HookState) (stS : SectionState)
    (parsed : Except String WireMessage) (e : String) (m : WireMessage)
    (mS : SectionMessage)
    (hm : m.mtype ∉ ["connection", "interview_started", "response_analyzed",
                     "interview_completed", "error"])
    (hmS : mS.mtype ∉ ["connection", "interview_started", "response_analyzed",
                       "next_question", "interview_completed", "error"]) :
    (∃ r, hookOnmessage st parsed = Except.ok r) ∧
    hookOnmessage st (Except.error e) = Except.ok (st, []) ∧
    handleWebSocketMessage st m = (st, []) ∧
    handleSectionMessage stS mS = (stS, []) := by
  simp only [List.mem_cons, List.mem_singleton, not_or] at hm hmS
  refine ⟨?_, rfl, ?_, ?_⟩
  · cases parsed with
    | ok m2 => exact ⟨handleWebSocketMessage st m2, rfl⟩
    | error e2 => exact ⟨(st, []), rfl⟩
  · simp only [handleWebSocketMessage]
    rw [if_neg hm.1, if_neg hm.2.1, if_neg hm.2.2.1, if_neg hm.2.2.2.1,
        if_neg hm.2.2.2.2.1]
  · simp only [handleSectionMessage]
    rw [if_neg hmS.1, if_neg hmS.2.1, if_neg hmS.2.2.1, if_neg hmS.2.2.2.1,
        if_neg hmS.2.2.2.2.1, if_neg hmS.2.2.2.2.2.1]

/-- A hook state mid-interview. -/
def hkW8 : HookState :=
  { state := InterviewState.waitingBackend, sessionId := "abc123",
    currentQuestion := "Tell me about yourself", questionNumber := 1,
    totalQuestions := 3 }

/-- A hook-side message of unknown type. -/
def mW8 : WireMessage :=
  { mtype := "audio_chunk", sessionId := none, question := none,
    questionNumber := none, totalQuestions := none, nextQuestion := none,
    finalFeedback := none, errorMessage := none }

/-- A component-side message of unknown type. -/
def mSW8 : SectionMessage :=
  { mtype := "audio_chunk", sessionId := none,
    question := QuestionPayload.absent, nextQuestion := QuestionPayload.absent,
    questionNumber := NumPayload.absent, totalQuestions := NumPayload.absent }

/-- Witness for claim C8 as amended. -/
theorem c8_amended_handler_totality_witness :
    hookOnmessage hkW8 (Except.error "SyntaxError: Unexpected token")
      = Except.ok (hkW8, []) ∧
    handleWebSocketMessage hkW8 mW8 = (hkW8, []) ∧
    handleSectionMessage stC8 mSW8 = (stC8, []) := by
  have h := c8_amended_handler_totality hkW8 stC8
    (Except.error "SyntaxError: Unexpected token")
    "SyntaxError: Unexpected token" mW8 mSW8 (by decide) (by decide)
  exact ⟨h.2.1, h.2.2.1, h.2.2.2⟩

end InterviewFE
